import Mathlib

/-!
# Verification of the AI-assisted schema modification subsystem (flowy-form)

Shallow embedding of the server-side core of the flowy-form repository:

* `src/server/src/lib/formio-validation.ts` — `validateFormioSchema` (the
  FormType-based variant, lines 240–265), `calculateSchemaComplexity`
  (lines 268–296), `MAX_SCHEMA_COMPLEXITY_FOR_AI` (line 299).
* `src/server/src/services/ai.ts` — `validateAISolution` (lines 551–585),
  `extractAllComponentKeys` (lines 588–620), `findDuplicateKeys`
  (lines 623–637), `isSchemaTooBigForAI` (lines 171–174) and the
  `generateAIAssistance` orchestrator (lines 39–135, the primary
  implementation at the top of the file).

Component nodes are dynamic JS objects; the embedded functions inspect only
the `key` field and the three nesting mechanisms (`components`,
`columns[*].components`, `rows[*][*].components`).  All other per-component
fields (`type`, `label`, `input`, `validate`, …) are never read by any of the
functions modelled here, so they are omitted from the node type.  A column is
represented by its optional `components` list (its `width`/`offset`/… fields
are never read); a row is a list of cells, each represented by its optional
`components` list.  `Option` distinguishes an absent field (`undefined`,
falsy in JS) from a present array (always truthy in JS, even when empty).
-/

namespace Flowy

/-- One node of a FormIO component tree.  `key` is the component's string
identifier (absent fields are `none`); `children` is the node's own
`components` array; `columns` holds, for each column, that column's optional
`components` array; `rows` holds, for each row, the list of its cells, each
cell carrying an optional `components` array. -/
inductive Component : Type where
  | mk (key : Option String)
       (children : Option (List Component))
       (columns : Option (List (Option (List Component))))
       (rows : Option (List (List (Option (List Component)))))

/-- The root form document (`FormType`).  `stype` embeds the JS `type` field
(`type` is reserved in Lean).  `passthrough` stands for all remaining
root-level fields, none of which is inspected by the embedded functions; the
object spread `{ ...currentSchema, components: ... }` copies them verbatim. -/
structure Schema : Type where
  title : Option String := none
  name : Option String := none
  stype : Option String := none
  display : Option String := none
  components : Option (List Component) := none
  passthrough : List (String × String) := []

/-! ## Complexity Accountant

`calculateSchemaComplexity` (formio-validation.ts lines 268–296): the inner
`countComponents` starts from `components.length` and, for every component,
adds the recursive counts of `component.components`, of each
`column.components` and of each `cell.components` when those fields are
present (a present array is truthy in JS even when empty; an absent field is
skipped).  The definitions below render the same sum element-wise:
`comps.length + Σ nested` is computed as `1 + nested c + count rest`. -/

mutual

def countComponents : List Component → Nat
  | [] => 0
  | c :: rest => 1 + countNested c + countComponents rest

def countNested : Component → Nat
  | .mk _ children columns rows =>
      countOptList children + countColumns columns + countRowsOpt rows

def countOptList : Option (List Component) → Nat
  | none => 0
  | some comps => countComponents comps

def countColumns : Option (List (Option (List Component))) → Nat
  | none => 0
  | some cols => countColumnList cols

def countColumnList : List (Option (List Component)) → Nat
  | [] => 0
  | col :: rest => countOptList col + countColumnList rest

def countRowsOpt : Option (List (List (Option (List Component)))) → Nat
  | none => 0
  | some rows => countRowList rows

def countRowList : List (List (Option (List Component))) → Nat
  | [] => 0
  | row :: rest => countColumnList row + countRowList rest

end

/-- `calculateSchemaComplexity`: `countComponents(schema.components || [])`.
In JS an absent `components` field falls through to `[]`; a present array
(even empty) is used as-is, which `Option.getD` renders exactly. -/
def calculateSchemaComplexity (schema : Schema) : Nat :=
  countComponents (schema.components.getD [])

/-- `MAX_SCHEMA_COMPLEXITY_FOR_AI` (formio-validation.ts line 299). -/
def MAX_SCHEMA_COMPLEXITY_FOR_AI : Nat := 50

/-- `isSchemaTooBigForAI` (services/ai.ts lines 171–174):
`calculateSchemaComplexity(schema) > MAX_SCHEMA_COMPLEXITY_FOR_AI`. -/
def isSchemaTooBigForAI (schema : Schema) : Bool :=
  calculateSchemaComplexity schema > MAX_SCHEMA_COMPLEXITY_FOR_AI

/-! ## Key extraction and duplicate detection

`extractAllComponentKeys` (services/ai.ts lines 588–620): the inner
`extractFromComponents` walks the component list in order; for each component
it pushes `component.key` when that field is truthy (in JS an absent key and
the empty string are both falsy and therefore skipped), then descends into
`component.components`, each `column.components` and each `cell.components`
in that order. -/

/-- The contribution of the `if (component.key) keys.push(component.key)`
step: one key when the field is present and truthy (non-empty), else none. -/
def keyContribution : Option String → List String
  | none => []
  | some k => if k = "" then [] else [k]

mutual

def keysComponents : List Component → List String
  | [] => []
  | c :: rest => keysOfComponent c ++ keysComponents rest

def keysOfComponent : Component → List String
  | .mk key children columns rows =>
      keyContribution key ++ keysOptList children ++ keysColumns columns ++
        keysRowsOpt rows

def keysOptList : Option (List Component) → List String
  | none => []
  | some comps => keysComponents comps

def keysColumns : Option (List (Option (List Component))) → List String
  | none => []
  | some cols => keysColumnList cols

def keysColumnList : List (Option (List Component)) → List String
  | [] => []
  | col :: rest => keysOptList col ++ keysColumnList rest

def keysRowsOpt : Option (List (List (Option (List Component)))) → List String
  | none => []
  | some rows => keysRowList rows

def keysRowList : List (List (Option (List Component))) → List String
  | [] => []
  | row :: rest => keysColumnList row ++ keysRowList rest

end

/-- `extractAllComponentKeys`: runs the walk on `schema.components || []`. -/
def extractAllComponentKeys (schema : Schema) : List String :=
  keysComponents (schema.components.getD [])

/-- The loop body of `findDuplicateKeys` (services/ai.ts lines 628–635): walk
the key list; a key already in `seen` is pushed onto `duplicates`, otherwise
it is added to `seen`.  The JS `Set` is rendered as the list of keys seen so
far (membership is all that is ever queried). -/
def findDupsAux : List String → List String → List String
  | [], _ => []
  | k :: rest, seen =>
      if seen.contains k then k :: findDupsAux rest seen
      else findDupsAux rest (k :: seen)

/-- `findDuplicateKeys` (services/ai.ts lines 623–637). -/
def findDuplicateKeys (schema : Schema) : List String :=
  findDupsAux (extractAllComponentKeys schema) []

/-! ## Schema Validator

`validateFormioSchema` (formio-validation.ts lines 240–265, the FormType
variant).  On the raw JS side the first two guards reject a non-object input
and an input whose `components` field is missing or not an array; in this
typed embedding only the missing-`components` case is representable
(`components = none`).  The `type` and `display` guards fire only when the
field is truthy (`schemaObj.type && ...`): an absent field and the empty
string are falsy and skipped.  Every rejecting branch returns immediately
with exactly one error string; the accepting branch returns the input object
itself as `data`. -/

structure ValidationResult : Type where
  valid : Bool
  errors : Option (List String)
  data : Option Schema

/-- The guard `schemaObj.f && schemaObj.f !== "form" && schemaObj.f !== "wizard"`
for a string field `f` (`type` or `display`). -/
def formTagInvalid : Option String → Bool
  | none => false
  | some s => ¬(s = "") && ¬(s = "form") && ¬(s = "wizard")

def validateFormioSchema (schema : Schema) : ValidationResult :=
  match schema.components with
  | none =>
      { valid := false
        errors := some ["Schema must be an object with a components array"]
        data := none }
  | some _ =>
      if formTagInvalid schema.stype then
        { valid := false
          errors := some ["Schema type must be \"form\" or \"wizard\""]
          data := none }
      else if formTagInvalid schema.display then
        { valid := false
          errors := some ["Schema display must be \"form\" or \"wizard\""]
          data := none }
      else
        { valid := true, errors := none, data := some schema }

/-! ## Safety Checker

`validateAISolution` (services/ai.ts lines 551–585) pushes issues into one
array in four stages, in order: structural validation errors, the complexity
ceiling, excessive key removal, duplicate keys.  Each stage is rendered as a
list and the stages are concatenated, which preserves the push order
exactly. -/

structure SafetyVerdict : Type where
  valid : Bool
  issues : Option (List String)

/-- Stage 1: `issues.push(...(validation.errors || ['Schema validation failed']))`
when the candidate fails `validateFormioSchema`.  (`validation.errors || …`
falls back only when `errors` is absent; `Option.getD` renders that.) -/
def validationIssues (newSchema : Schema) : List String :=
  let validation := validateFormioSchema newSchema
  if validation.valid then [] else validation.errors.getD ["Schema validation failed"]

/-- Stage 2: the hard ceiling
`complexity > MAX_SCHEMA_COMPLEXITY_FOR_AI * 2` (i.e. 100). -/
def complexityIssues (newSchema : Schema) : List String :=
  let complexity := calculateSchemaComplexity newSchema
  if complexity > MAX_SCHEMA_COMPLEXITY_FOR_AI * 2 then
    ["Solution is too complex (" ++ toString complexity ++ " components)"]
  else []

/-- Stage 3: `removedKeys = originalKeys.filter(k => !newKeys.includes(k))`
and the data-loss tolerance `removedKeys.length > originalKeys.length * 0.5`.
The JS comparison multiplies by the float `0.5`; over the integer list
lengths occurring here it is exactly the integer comparison
`2 * removedKeys.length > originalKeys.length`, which is how it is encoded
(no floating point in the model). -/
def removalIssues (originalSchema newSchema : Schema) : List String :=
  let originalKeys := extractAllComponentKeys originalSchema
  let newKeys := extractAllComponentKeys newSchema
  let removedKeys := originalKeys.filter (fun k => !(newKeys.contains k))
  if 2 * removedKeys.length > originalKeys.length then
    ["Solution removes too many existing form fields: " ++
      String.intercalate ", " removedKeys ++ ". This may cause significant data loss."]
  else []

/-- Stage 4: duplicate component keys. -/
def duplicateIssues (newSchema : Schema) : List String :=
  let duplicateKeys := findDuplicateKeys newSchema
  if duplicateKeys.length > 0 then
    ["Solution contains duplicate component keys: " ++
      String.intercalate ", " duplicateKeys]
  else []

/-- All four stages in source order. -/
def allIssues (originalSchema newSchema : Schema) : List String :=
  validationIssues newSchema ++ complexityIssues newSchema ++
    removalIssues originalSchema newSchema ++ duplicateIssues newSchema

/-- `validateAISolution`: `valid` is `issues.length === 0` and the `issues`
field is `issues.length > 0 ? issues : undefined`. -/
def validateAISolution (originalSchema newSchema : Schema) : SafetyVerdict :=
  let issues := allIssues originalSchema newSchema
  { valid := issues.isEmpty
    issues := if issues.isEmpty then none else some issues }

/-! ## Generation Orchestrator

`generateAIAssistance` (services/ai.ts lines 39–135, the primary
implementation).  The ambient configuration `isAiEnabled()` is passed in as
the boolean `aiEnabled`; the single external `generateText` call is passed in
as a `CapabilityResult` describing what that call would produce if invoked,
and the second result component counts how many times the capability was
actually invoked (0 or 1).  A thrown `Error` is rendered as `Except.error`
with the spec's error taxonomy; `errorMessage` records the exact message
strings thrown by the source. -/

/-- The error taxonomy of the orchestrator's failure paths. -/
inductive AiError : Type where
  | complexityExceeded
  | capabilityUnavailable
  | generationFailed
deriving DecidableEq

/-- The exact `throw new Error(...)` message of each failure path
(services/ai.ts lines 42, 47, 133). -/
def errorMessage : AiError → String
  | .complexityExceeded =>
      "Form is too complex for AI assistance. AI assistance is limited to forms with up to 50 components."
  | .capabilityUnavailable =>
      "AI assistance is not configured. Please set OPENAI_API_KEY environment variable."
  | .generationFailed => "AI service encountered an unexpected error"

/-- The parsed `jsonResponse` of a successful external call (services/ai.ts
lines 74–82): the fields `components`, `explanation` and `warnings` are each
read with a `||` fallback, so each is optional here. -/
structure GenPayload : Type where
  components : Option (List Component)
  explanation : Option String
  warnings : Option (List String)

/-- What the external `generateText` call would produce: it throws
(`failure`), returns text without a ```json``` block (`noJson`), or returns
text carrying a parseable JSON block (`withJson`). -/
inductive CapabilityResult : Type where
  | failure
  | noJson (text : String)
  | withJson (payload : GenPayload) (text : String)

structure AiAssistRequest : Type where
  message : String
  currentSchema : Schema

structure AiAssistResponse : Type where
  markdown : String
  schema : Schema

/-- The candidate assembly (services/ai.ts lines 77–80):
`{ ...request.currentSchema, components: jsonResponse.components || request.currentSchema.components }`.
The spread copies every root-level field of `currentSchema`; only
`components` is overwritten, and only when the returned component list is
present (a present array is truthy in JS even when empty). -/
def assembleCandidate (currentSchema : Schema) (respComponents : Option (List Component)) : Schema :=
  { currentSchema with
    components :=
      match respComponents with
      | some cs => some cs
      | none => currentSchema.components }

/-- `formatMarkdownResponse` (lib/ai/templates.ts, the variant imported by the
primary service): a fixed template around the explanation, the complexity
count, and a warnings section present only when `warnings` is non-empty. -/
def formatMarkdownResponse (explanation : String) (complexity : Nat)
    (warnings : List String) : String :=
  "## AI Form Assistant (Tool-Enhanced)\n\n" ++ explanation ++
    "\n\n### Changes Made:\n- Updated form structure using AI validation tools\n- Current complexity: " ++
    toString complexity ++ " components\n- AI processing with tools: ✅ Complete\n\n" ++
    (if warnings.isEmpty then "" else
      "\n### ⚠️ Warnings:\n" ++
        String.intercalate "\n" (warnings.map (fun w => "- " ++ w)) ++ "\n") ++
    "\n### Processing Method:\n- **Tool Calling**: Using generateText with validation and complexity analysis tools" ++
    "\n- **Self-Validation**: AI checks its own work using tools before responding" ++
    "\n- **Type Safety**: Full FormType compatibility with tool-assisted validation" ++
    "\n\n### Next Steps:\n- Review the changes in the preview" ++
    "\n- Click \"Accept\" to apply changes or \"Reject\" to revert" ++
    "\n- The form will auto-save once you accept the changes"

/-- The tail of the success path (services/ai.ts lines 107–124): run
`validateAISolution` on `(currentSchema, updatedSchema)`, append a
`Validation issues: …` warning when it fails (fail-open), then format the
markdown.  The `toolResults`-derived usage section is not modelled (an empty
tool-usage list leaves the markdown unchanged, line 119). -/
def finishResponse (request : AiAssistRequest) (explanation : String)
    (updatedSchema : Schema) (warnings : List String) : AiAssistResponse :=
  let validation := validateAISolution request.currentSchema updatedSchema
  let finalWarnings :=
    if validation.valid then warnings
    else warnings ++
      ["Validation issues: " ++ String.intercalate ", " (validation.issues.getD [])]
  { markdown :=
      formatMarkdownResponse explanation
        (calculateSchemaComplexity updatedSchema) finalWarnings
    schema := updatedSchema }

/-- `generateAIAssistance` (services/ai.ts lines 39–135): the complexity
pre-gate (line 41) fires first, the availability gate (line 46) second, both
before the external call; then the capability is invoked exactly once and its
output parsed and post-checked. -/
def generateAIAssistance (aiEnabled : Bool) (capability : CapabilityResult)
    (request : AiAssistRequest) : Except AiError AiAssistResponse × Nat :=
  if isSchemaTooBigForAI request.currentSchema then
    (Except.error AiError.complexityExceeded, 0)
  else if !aiEnabled then
    (Except.error AiError.capabilityUnavailable, 0)
  else
    match capability with
    | .failure => (Except.error AiError.generationFailed, 1)
    | .noJson text =>
        -- lines 83–88: fall back to the original schema, keep the raw text
        -- as the explanation, and record the warning.
        (Except.ok
          (finishResponse request text request.currentSchema
            ["AI response did not contain valid schema updates"]), 1)
    | .withJson payload text =>
        (Except.ok
          (finishResponse request (payload.explanation.getD text)
            (assembleCandidate request.currentSchema payload.components)
            (payload.warnings.getD [])), 1)

/-! ## Model-level helpers for stating the spec's properties -/

/-! `flattenComponents`: the list of every component of a forest, at any
nesting depth, gathered through the same three nesting mechanisms the source
traverses.  Used only to state the spec's "no components at any nesting
depth". -/

mutual

def flattenComponents : List Component → List Component
  | [] => []
  | c :: rest => c :: (flattenNested c ++ flattenComponents rest)

def flattenNested : Component → List Component
  | .mk _ children columns rows =>
      flattenOptList children ++ flattenColumns columns ++ flattenRowsOpt rows

def flattenOptList : Option (List Component) → List Component
  | none => []
  | some comps => flattenComponents comps

def flattenColumns : Option (List (Option (List Component))) → List Component
  | none => []
  | some cols => flattenColumnList cols

def flattenColumnList : List (Option (List Component)) → List Component
  | [] => []
  | col :: rest => flattenOptList col ++ flattenColumnList rest

def flattenRowsOpt : Option (List (List (Option (List Component)))) → List Component
  | none => []
  | some rows => flattenRowList rows

def flattenRowList : List (List (Option (List Component))) → List Component
  | [] => []
  | row :: rest => flattenColumnList row ++ flattenRowList rest

end

/-- Every component of a schema, at any nesting depth. -/
def allComponents (schema : Schema) : List Component :=
  flattenComponents (schema.components.getD [])

/-- A component that is not nested and nests nothing: it carries none of the
three child-sequence mechanisms. -/
def isUnnested : Component → Bool
  | .mk _ children columns rows =>
      children.isNone && columns.isNone && rows.isNone

/-- A root schema whose components are exactly one leaf component per key, in
order (used for concrete test vectors). -/
def rootSchema (keys : List String) : Schema :=
  { components := some (keys.map (fun k => Component.mk (some k) none none none)) }

/-! ## Concrete test vectors -/

def ksTen : List String := ["k1","k2","k3","k4","k5","k6","k7","k8","k9","k10"]

/-- An original schema with 10 uniquely-keyed root components. -/
def origTen : Schema := rootSchema ksTen

/-- A candidate missing exactly 4 of the 10 original keys. -/
def candMissingFour : Schema := rootSchema (ksTen.take 6)

/-- A candidate missing exactly 5 of the 10 original keys. -/
def candMissingFive : Schema := rootSchema (ksTen.take 5)

/-- A candidate missing exactly 6 of the 10 original keys. -/
def candMissingSix : Schema := rootSchema (ksTen.take 4)

/-- A schema with two root components both keyed `email`. -/
def dupSchema : Schema := rootSchema ["email", "email"]

/-- A well-formed schema with a single root component. -/
def singleA : Schema := rootSchema ["a"]

/-- A schema of 51 components, one over the soft generation limit. -/
def schema51 : Schema :=
  { components := some (List.replicate 51 (Component.mk none none none none)) }

/-- A candidate with `email` both as a direct child and inside a column of a
second component. -/
def candDupNested : Schema :=
  { components := some
      [Component.mk (some "email") none none none,
       Component.mk (some "wrapper") none
         (some [some [Component.mk (some "email") none none none]]) none] }

/-- The empty schema: a present but empty components array. -/
def emptyComponentsSchema : Schema := { components := some [] }

/-- A schema with three un-nested root components. -/
def threeLeaves : Schema := rootSchema ["a", "b", "c"]

/-- A schema of 101 components, one over the hard safety ceiling. -/
def schema101 : Schema :=
  { components := some (List.replicate 101 (Component.mk none none none none)) }

/-! ## Helper lemmas -/

/-- Filtering a list by non-membership in itself leaves nothing: the
`removedKeys` diff of a schema against itself is empty. -/
lemma filter_not_contains_self (l : List String) :
    l.filter (fun k => !(l.contains k)) = [] := by
  apply List.filter_eq_nil_iff.mpr
  intro a ha
  simp [ha]

/-- A key already seen that occurs again in the remaining walk ends up among
the duplicates collected by `findDupsAux`. -/
lemma mem_findDupsAux_of_seen {k : String} :
    ∀ (l seen : List String), k ∈ seen → k ∈ l → k ∈ findDupsAux l seen
  | [], _, _, hl => by cases hl
  | c :: rest, seen, hs, hl => by
    unfold findDupsAux
    by_cases hc : seen.contains c
    · rw [if_pos hc]
      rcases List.mem_cons.mp hl with h | h
      · exact h ▸ List.mem_cons_self _ _
      · exact List.mem_cons_of_mem _ (mem_findDupsAux_of_seen rest seen hs h)
    · rw [if_neg hc]
      have hck : c ≠ k := fun he =>
        hc (he ▸ List.elem_eq_true_of_mem hs)
      have hkr : k ∈ rest := by
        rcases List.mem_cons.mp hl with h | h
        · exact absurd h.symm hck
        · exact h
      exact mem_findDupsAux_of_seen rest (c :: seen) (List.mem_cons_of_mem _ hs) hkr

/-- A key occurring at least twice in the walked key list is collected by
`findDupsAux`, whatever has been seen before. -/
lemma mem_findDupsAux_of_two_count {k : String} :
    ∀ (l seen : List String), 2 ≤ l.count k → k ∈ findDupsAux l seen
  | [], _, h => by simp at h
  | c :: rest, seen, h => by
    unfold findDupsAux
    by_cases hck : c = k
    · subst hck
      have hcount : 1 ≤ rest.count c := by
        rw [List.count_cons_self] at h
        omega
      have hmem : c ∈ rest := List.count_pos_iff.mp hcount
      by_cases hc : seen.contains c
      · rw [if_pos hc]
        exact List.mem_cons_self _ _
      · rw [if_neg hc]
        exact mem_findDupsAux_of_seen rest (c :: seen) (List.mem_cons_self _ _) hmem
    · have hcount : 2 ≤ rest.count k := by
        rw [List.count_cons_of_ne (fun he => hck he.symm)] at h
        exact h
      by_cases hc : seen.contains c
      · rw [if_pos hc]
        exact List.mem_cons_of_mem _ (mem_findDupsAux_of_two_count rest seen hcount)
      · rw [if_neg hc]
        exact mem_findDupsAux_of_two_count rest (c :: seen) hcount

/-- A forest of components none of which carries a nesting mechanism counts
exactly its own length. -/
lemma countComponents_eq_length_of_unnested :
    ∀ (l : List Component), (∀ c ∈ l, isUnnested c = true) →
      countComponents l = l.length
  | [], _ => rfl
  | c :: rest, h => by
    obtain ⟨key, children, columns, rows⟩ := c
    have hc := h _ (List.mem_cons_self _ _)
    simp only [isUnnested, Bool.and_eq_true, Option.isNone_iff_eq_none] at hc
    obtain ⟨⟨h1, h2⟩, h3⟩ := hc
    subst h1; subst h2; subst h3
    have ih := countComponents_eq_length_of_unnested rest
      (fun x hx => h x (List.mem_cons_of_mem _ hx))
    simp [countComponents, countNested, countOptList, countColumns, countRowsOpt, ih,
      List.length_cons]
    omega

/-! ## Claims -/

/-- C1, counterexample.  The claim asserts that a candidate missing exactly 5
of the 10 uniquely-keyed root components triggers the data-loss removal
issue.  It does not: the code's comparison `removedKeys.length >
originalKeys.length * 0.5` is strict, `5 > 5` is false, and the verdict on
this candidate carries no issue at all. -/
theorem c1_missing_five_no_removal_issue :
    validateAISolution origTen candMissingFive = { valid := true, issues := none } := rfl

/-- C1, amended.  For an original schema with 10 uniquely-keyed root
components under the default 50% tolerance, `validateAISolution` appends the
data-loss removal issue when the candidate is missing exactly 6 of those
keys, and appends no issue when the candidate is missing exactly 5 or
exactly 4 (the comparison `removedKeys.length > originalKeys.length * 0.5`
is strict, so exactly half may be removed without a warning). -/
theorem c1_removal_boundary :
    (validateAISolution origTen candMissingFour).issues = none ∧
    (validateAISolution origTen candMissingFive).issues = none ∧
    (validateAISolution origTen candMissingSix).issues =
      some ["Solution removes too many existing form fields: k5, k6, k7, k8, k9, k10. This may cause significant data loss."] :=
  ⟨rfl, rfl, rfl⟩

/-- C2, counterexample.  The claim asserts `validateAISolution S S` is always
valid with no issues, even when `S` contains duplicate keys.  A schema with
two root components keyed `email` refutes it: the no-op edit is flagged
invalid. -/
theorem c2_selfcheck_flags_duplicates :
    (validateAISolution dupSchema dupSchema).valid = false := rfl

/-- C2, amended.  `validateAISolution S S` returns `valid = true` with the
`issues` field absent for every schema `S` that itself passes
`validateFormioSchema`, has complexity at most the hard ceiling (100), and
contains no duplicate keys; the self-diff removal stage never fires on a
no-op edit, but the three candidate-only stages apply to `S` itself. -/
theorem c2_noop_edit_valid (S : Schema)
    (h1 : (validateFormioSchema S).valid = true)
    (h2 : calculateSchemaComplexity S ≤ MAX_SCHEMA_COMPLEXITY_FOR_AI * 2)
    (h3 : findDuplicateKeys S = []) :
    validateAISolution S S = { valid := true, issues := none } := by
  have hv : validationIssues S = [] := by
    unfold validationIssues
    simp only []
    rw [h1]
    simp
  have hcx : complexityIssues S = [] := by
    unfold complexityIssues
    simp only [gt_iff_lt]
    rw [if_neg (by omega)]
  have hrm : removalIssues S S = [] := by
    unfold removalIssues
    simp only [filter_not_contains_self, List.length_nil]
    simp
  have hdup : duplicateIssues S = [] := by
    unfold duplicateIssues
    rw [h3]
    simp
  unfold validateAISolution allIssues
  rw [hv, hcx, hrm, hdup]
  simp

/-- C2, witness: the amended theorem applied to a one-component schema. -/
theorem c2_noop_edit_valid_witness :
    (validateFormioSchema singleA).valid = true ∧
    calculateSchemaComplexity singleA ≤ MAX_SCHEMA_COMPLEXITY_FOR_AI * 2 ∧
    findDuplicateKeys singleA = [] ∧
    validateAISolution singleA singleA = { valid := true, issues := none } :=
  ⟨rfl, by decide, rfl, c2_noop_edit_valid singleA rfl (by decide) rfl⟩

/-- C3.  Whenever the current schema's complexity exceeds the soft limit 50,
`generateAIAssistance` fails with the complexity-exceeded condition and the
external capability is invoked zero times, whatever the availability flag and
whatever the capability would have produced. -/
theorem c3_pregate_short_circuit (aiEnabled : Bool) (capability : CapabilityResult)
    (request : AiAssistRequest)
    (h : MAX_SCHEMA_COMPLEXITY_FOR_AI < calculateSchemaComplexity request.currentSchema) :
    generateAIAssistance aiEnabled capability request =
      (Except.error AiError.complexityExceeded, 0) := by
  have hb : isSchemaTooBigForAI request.currentSchema = true := by
    unfold isSchemaTooBigForAI
    simpa using h
  unfold generateAIAssistance
  rw [hb]
  simp

/-- C3, witness: a schema of 51 components is rejected before any capability
call even with the capability available. -/
theorem c3_pregate_short_circuit_witness :
    MAX_SCHEMA_COMPLEXITY_FOR_AI < calculateSchemaComplexity schema51 ∧
    generateAIAssistance true CapabilityResult.failure
        { message := "add a field", currentSchema := schema51 } =
      (Except.error AiError.complexityExceeded, 0) :=
  ⟨by decide, c3_pregate_short_circuit true CapabilityResult.failure _ (by decide)⟩

/-- C4.  For every input, `validateFormioSchema` either accepts and hands the
input object back unchanged as `data`, or rejects with at least one error
string. -/
theorem c4_validator_result_guarantee (s : Schema) :
    ((validateFormioSchema s).valid = true ∧ (validateFormioSchema s).data = some s) ∨
      ((validateFormioSchema s).valid = false ∧
        (validateFormioSchema s).errors.getD [] ≠ []) := by
  unfold validateFormioSchema
  cases s.components with
  | none => right; simp
  | some cs =>
    by_cases ht : formTagInvalid s.stype
    · right; simp [ht]
    · by_cases hd : formTagInvalid s.display
      · right; simp [ht, hd]
      · left; simp [ht, hd]

/-- C5.  Any candidate whose flattened key list (through direct children,
columns and row cells) carries the key `email` at least twice is flagged
invalid by `validateAISolution`, with the duplicate-key issue among the
reported issues — against any original and regardless of structural
validity. -/
theorem c5_duplicate_email_flagged (original cand : Schema)
    (h : 2 ≤ (extractAllComponentKeys cand).count "email") :
    (validateAISolution original cand).valid = false ∧
      ("Solution contains duplicate component keys: " ++
          String.intercalate ", " (findDuplicateKeys cand)) ∈
        (validateAISolution original cand).issues.getD [] := by
  have hdupmem : "email" ∈ findDuplicateKeys cand :=
    mem_findDupsAux_of_two_count _ [] h
  have hdupne : findDuplicateKeys cand ≠ [] := by
    intro he; rw [he] at hdupmem; exact List.not_mem_nil _ hdupmem
  have hdi : duplicateIssues cand =
      ["Solution contains duplicate component keys: " ++
        String.intercalate ", " (findDuplicateKeys cand)] := by
    unfold duplicateIssues
    simp only []
    rw [if_pos (by simpa using List.length_pos.mpr hdupne)]
  have hmem : ("Solution contains duplicate component keys: " ++
      String.intercalate ", " (findDuplicateKeys cand)) ∈ allIssues original cand := by
    unfold allIssues
    rw [hdi]
    simp
  have hne : allIssues original cand ≠ [] := by
    intro he; rw [he] at hmem; exact List.not_mem_nil _ hmem
  obtain ⟨a, t, hat⟩ := List.exists_cons_of_ne_nil hne
  unfold validateAISolution
  simp only []
  rw [hat] at hmem ⊢
  constructor
  · simp
  · simpa using hmem

/-- C5, witness: `email` as a direct child and again inside a column. -/
theorem c5_duplicate_email_flagged_witness :
    2 ≤ (extractAllComponentKeys candDupNested).count "email" ∧
    ((validateAISolution (rootSchema ["name"]) candDupNested).valid = false ∧
      ("Solution contains duplicate component keys: " ++
          String.intercalate ", " (findDuplicateKeys candDupNested)) ∈
        (validateAISolution (rootSchema ["name"]) candDupNested).issues.getD []) :=
  ⟨by decide, c5_duplicate_email_flagged (rootSchema ["name"]) candDupNested (by decide)⟩

/-- C6.  With the availability flag off, `generateAIAssistance` fails with the
capability-unavailable condition for every in-limit input (the capability is
never invoked, and no mock or fallback response is returned: the result is an
error, not a success). -/
theorem c6_capability_unavailable (capability : CapabilityResult)
    (request : AiAssistRequest)
    (h : calculateSchemaComplexity request.currentSchema ≤ MAX_SCHEMA_COMPLEXITY_FOR_AI) :
    generateAIAssistance false capability request =
      (Except.error AiError.capabilityUnavailable, 0) := by
  have hb : isSchemaTooBigForAI request.currentSchema = false := by
    unfold isSchemaTooBigForAI
    simpa using h
  unfold generateAIAssistance
  rw [hb]
  simp

/-- C6, witness: the empty schema. -/
theorem c6_capability_unavailable_witness :
    calculateSchemaComplexity emptyComponentsSchema ≤ MAX_SCHEMA_COMPLEXITY_FOR_AI ∧
    generateAIAssistance false CapabilityResult.failure
        { message := "add an email field", currentSchema := emptyComponentsSchema } =
      (Except.error AiError.capabilityUnavailable, 0) :=
  ⟨by decide, c6_capability_unavailable CapabilityResult.failure _ (by decide)⟩

/-- C7.  The complexity score is a non-negative integer; it is zero exactly
when the schema has no components at any nesting depth; and a schema whose
root components are all un-nested scores exactly their number. -/
theorem c7_complexity_properties (s : Schema) :
    0 ≤ calculateSchemaComplexity s ∧
      (calculateSchemaComplexity s = 0 ↔ allComponents s = []) ∧
      ((∀ c ∈ s.components.getD [], isUnnested c = true) →
        calculateSchemaComplexity s = (s.components.getD []).length) := by
  refine ⟨Nat.zero_le _, ?_, ?_⟩
  · unfold calculateSchemaComplexity allComponents
    cases s.components.getD [] with
    | nil => simp [countComponents, flattenComponents]
    | cons c rest =>
      simp [countComponents, flattenComponents]
  · intro h
    exact countComponents_eq_length_of_unnested _ h

/-- C7, witness: three un-nested root components score exactly 3. -/
theorem c7_complexity_properties_witness :
    (∀ c ∈ threeLeaves.components.getD [], isUnnested c = true) ∧
    calculateSchemaComplexity threeLeaves = (threeLeaves.components.getD []).length :=
  ⟨by decide, (c7_complexity_properties threeLeaves).2.2 (by decide)⟩

/-- C8, counterexample.  The claim asserts the over-ceiling issue names both
the actual count and the ceiling value.  At 101 components the appended issue
is exactly `Solution is too complex (101 components)`: the ceiling value 100
does not occur anywhere in the string. -/
theorem c8_issue_omits_ceiling :
    (validateAISolution emptyComponentsSchema schema101).issues =
      some ["Solution is too complex (101 components)"] ∧
    ¬ ("100".toList <:+: "Solution is too complex (101 components)".toList) :=
  ⟨rfl, by decide⟩

/-- C8, amended.  For every candidate whose complexity exceeds the hard
ceiling `MAX_SCHEMA_COMPLEXITY_FOR_AI * 2` (i.e. 100), `validateAISolution`
appends an issue naming the actual component count; the ceiling value itself
is not part of the message. -/
theorem c8_ceiling_issue_names_count (o n : Schema)
    (h : MAX_SCHEMA_COMPLEXITY_FOR_AI * 2 < calculateSchemaComplexity n) :
    ("Solution is too complex (" ++ toString (calculateSchemaComplexity n) ++
        " components)") ∈ (validateAISolution o n).issues.getD [] := by
  have hcx : complexityIssues n =
      ["Solution is too complex (" ++ toString (calculateSchemaComplexity n) ++
        " components)"] := by
    unfold complexityIssues
    simp only [gt_iff_lt]
    rw [if_pos h]
  have hmem : ("Solution is too complex (" ++ toString (calculateSchemaComplexity n) ++
      " components)") ∈ allIssues o n := by
    unfold allIssues
    rw [hcx]
    simp
  have hne : allIssues o n ≠ [] := by
    intro he; rw [he] at hmem; exact List.not_mem_nil _ hmem
  obtain ⟨a, t, hat⟩ := List.exists_cons_of_ne_nil hne
  unfold validateAISolution
  simp only []
  rw [hat] at hmem ⊢
  simpa using hmem

/-- C8, witness: the amended theorem at 101 components. -/
theorem c8_ceiling_issue_names_count_witness :
    MAX_SCHEMA_COMPLEXITY_FOR_AI * 2 < calculateSchemaComplexity schema101 ∧
    ("Solution is too complex (" ++ toString (calculateSchemaComplexity schema101) ++
        " components)") ∈
      (validateAISolution emptyComponentsSchema schema101).issues.getD [] :=
  ⟨by decide, c8_ceiling_issue_names_count emptyComponentsSchema schema101 (by decide)⟩

/-- C9.  Assembling the candidate from a returned component list replaces only
the `components` field; the title, name, type, display and all passthrough
root-level fields of the current schema are unchanged. -/
theorem c9_assemble_preserves_root_fields (current : Schema) (cs : List Component) :
    (assembleCandidate current (some cs)).title = current.title ∧
    (assembleCandidate current (some cs)).name = current.name ∧
    (assembleCandidate current (some cs)).stype = current.stype ∧
    (assembleCandidate current (some cs)).display = current.display ∧
    (assembleCandidate current (some cs)).passthrough = current.passthrough ∧
    (assembleCandidate current (some cs)).components = some cs :=
  ⟨rfl, rfl, rfl, rfl, rfl, rfl⟩

/-- C10.  Every verdict of `validateAISolution` either has `valid = true`
with the `issues` field absent, or `valid = false` with `issues` present and
non-empty; a valid verdict never carries an empty issues list. -/
theorem c10_verdict_shape (o n : Schema) :
    ((validateAISolution o n).issues = none ∧ (validateAISolution o n).valid = true) ∨
      (∃ l, (validateAISolution o n).issues = some l ∧ l ≠ [] ∧
        (validateAISolution o n).valid = false) := by
  unfold validateAISolution
  cases hl : allIssues o n with
  | nil => left; simp
  | cons a t => right; exact ⟨a :: t, by simp, by simp, by simp⟩

end Flowy
